import Mathlib

/-!
Shallow embedding of the authorization, lifecycle and aggregation core of the
Thunderstore package-registry application, together with theorems settling the
specification claims about it.

The Django ORM state is made explicit: querysets become lists, model rows
become structures, raised ValidationError becomes an Except error value, and
the database touched by a save becomes an explicit argument and result.
-/

namespace Thunderstore

/-- Review statuses of a package listing
(thunderstore.community.consts.PackageListingReviewStatus). -/
inductive PackageListingReviewStatus
  | unreviewed
  | approved
  | rejected
deriving DecidableEq

/-- Roles of a community membership
(thunderstore.community.models.community_membership.CommunityMemberRole).
The source file defining the enum is not under src/; the members used by the
code under src/ are moderator and owner, and the role registry of the spec
adds the plain member role. -/
inductive CommunityMemberRole
  | owner
  | moderator
  | member
deriving DecidableEq

/-- Roles of a team membership (TeamMemberRole: owner, member), as enumerated
by the tests under src/. -/
inductive TeamMemberRole
  | owner
  | member
deriving DecidableEq

/-- The error kinds raised as django ValidationError (or db errors) by the
checks modelled here, one constructor per distinct denial message. -/
inductive ValidationError
  | NotAuthenticated
  | UserDeactivated
  | ServiceAccountForbidden
  | InsufficientRole
  | IdentifierReadOnly
  | DoesNotExist
  | UsernameTaken
  | DuplicateMembership
deriving DecidableEq

/-- The actor: a django user row, with the flags read by the authorization
checks. hasService captures hasattr(user, "service_account");
hasDeprecatePerm captures has_perm("repository.deprecate_package"). -/
structure User where
  pk : Nat
  is_authenticated : Bool
  is_active : Bool
  hasService : Bool
  is_superuser : Bool
  is_staff : Bool
  hasDeprecatePerm : Bool
deriving DecidableEq

/-- Aggregated statistics of a community (dataclass AggregatedFields /
model CommunityAggregatedFields fields). -/
structure AggregatedFields where
  download_count : Nat
  package_count : Nat
deriving DecidableEq

/-- A package listing row as seen by the aggregation updater: whether the
underlying package (and a version of it) is active, the review status, and
its total download count. -/
structure PackageListing where
  package_is_active : Bool
  review_status : PackageListingReviewStatus
  total_downloads : Nat
deriving DecidableEq

/-- A community row: primary key (none while unsaved), identifier, image
fields reset by save, the approval flag, its memberships (user pk to role),
its package listings, and the optional aggregated-fields record. -/
structure Community where
  pk : Option Nat
  identifier : String
  icon : Bool
  icon_width : Nat
  icon_height : Nat
  background_image : Bool
  background_image_width : Nat
  background_image_height : Nat
  require_package_listing_approval : Bool
  members : List (Nat × CommunityMemberRole)
  package_listings : List PackageListing
  aggregated_fields : Option AggregatedFields
deriving DecidableEq

/-- Community.get_membership_for_user: first membership of the user on this
community, if any (the per-request cache is irrelevant to the value). -/
def Community.get_membership_for_user (c : Community) (u : User) :
    Option CommunityMemberRole :=
  (c.members.find? (fun m => m.1 == u.pk)).map (fun m => m.2)

/-- Community.ensure_user_can_manage_packages: the throwing authorization
check, embedded branch for branch from the source. -/
def Community.ensure_user_can_manage_packages (c : Community)
    (user : Option User) : Except ValidationError Unit :=
  match user with
  | none => .error .NotAuthenticated
  | some u =>
    if !u.is_authenticated then .error .NotAuthenticated
    else if !u.is_active then .error .UserDeactivated
    else if u.hasService then .error .ServiceAccountForbidden
    else
      let membership := c.get_membership_for_user u
      if (match membership with
          | none => true
          | some r => !(r == CommunityMemberRole.moderator
                        || r == CommunityMemberRole.owner))
          && !(u.is_superuser || u.is_staff)
      then .error .InsufficientRole
      else .ok ()

/-- Modelled from the spec: thunderstore.core.utils.check_validity is not
under src/. Per the spec, the can-style queries swallow the denial raised by
the wrapped ensure-style check and resolve any error into false. -/
def check_validity (r : Except ValidationError Unit) : Bool :=
  match r with
  | .ok _ => true
  | .error _ => false

/-- Community.can_user_manage_packages: the non-throwing boolean query. -/
def Community.can_user_manage_packages (c : Community)
    (user : Option User) : Bool :=
  check_validity (Community.ensure_user_can_manage_packages c user)

/-- A package row: the memberships of its owning team (user pk to role), the
two lifecycle flags, and the update timestamp (an abstract tick). -/
structure Package where
  owner_members : List (Nat × TeamMemberRole)
  is_active : Bool
  is_deprecated : Bool
  date_updated : Nat
deriving DecidableEq

/-- Modelled from the spec: Package.deprecate is not under src/ (only its
test is). Per the spec and test, it flips is_deprecated to true and leaves
the update timestamp untouched (save with update_fields restricted to the
flag). -/
def Package.deprecate (p : Package) : Package :=
  { p with is_deprecated := true }

/-- Modelled from the spec: Package.undeprecate is not under src/. It flips
is_deprecated to false, leaving the update timestamp untouched. -/
def Package.undeprecate (p : Package) : Package :=
  { p with is_deprecated := false }

/-- Modelled from the spec: Package.activate is not under src/. It flips
is_active to true, leaving the update timestamp untouched. -/
def Package.activate (p : Package) : Package :=
  { p with is_active := true }

/-- Modelled from the spec: Package.deactivate is not under src/. It flips
is_active to false, leaving the update timestamp untouched. -/
def Package.deactivate (p : Package) : Package :=
  { p with is_active := false }

/-- Modelled from the spec: Package.ensure_user_can_manage_deprecation is not
under src/ (only its tests are). Per the spec precedence order and the tests:
authentication, active flag and service-account denials first, then a
superuser bypass, then a staff-with-deprecate-permission bypass, then team
membership with role owner or member. -/
def Package.ensure_user_can_manage_deprecation (p : Package)
    (user : Option User) : Except ValidationError Unit :=
  match user with
  | none => .error .NotAuthenticated
  | some u =>
    if !u.is_authenticated then .error .NotAuthenticated
    else if !u.is_active then .error .UserDeactivated
    else if u.hasService then .error .ServiceAccountForbidden
    else if u.is_superuser then .ok ()
    else if u.is_staff && u.hasDeprecatePerm then .ok ()
    else
      match p.owner_members.find? (fun m => m.1 == u.pk) with
      | some m =>
        if m.2 == TeamMemberRole.owner || m.2 == TeamMemberRole.member
        then .ok ()
        else .error .InsufficientRole
      | none => .error .InsufficientRole

/-- Modelled from the spec: Package.ensure_user_can_manage_wiki is not under
src/ (only its tests are). Per the tests, after the authentication, active
and service-account denials the check requires a team membership with role
owner or member, with no staff or superuser bypass. -/
def Package.ensure_user_can_manage_wiki (p : Package)
    (user : Option User) : Except ValidationError Unit :=
  match user with
  | none => .error .NotAuthenticated
  | some u =>
    if !u.is_authenticated then .error .NotAuthenticated
    else if !u.is_active then .error .UserDeactivated
    else if u.hasService then .error .ServiceAccountForbidden
    else
      match p.owner_members.find? (fun m => m.1 == u.pk) with
      | some m =>
        if m.2 == TeamMemberRole.owner || m.2 == TeamMemberRole.member
        then .ok ()
        else .error .InsufficientRole
      | none => .error .InsufficientRole

/-- Package.can_user_manage_deprecation: non-throwing boolean query. -/
def Package.can_user_manage_deprecation (p : Package)
    (user : Option User) : Bool :=
  check_validity (Package.ensure_user_can_manage_deprecation p user)

/-- Package.can_user_manage_wiki: non-throwing boolean query. -/
def Package.can_user_manage_wiki (p : Package)
    (user : Option User) : Bool :=
  check_validity (Package.ensure_user_can_manage_wiki p user)

/-- Community.valid_review_statuses: the review statuses visible for this
community, depending on the approval flag. -/
def Community.valid_review_statuses (c : Community) :
    List PackageListingReviewStatus :=
  if c.require_package_listing_approval
  then [PackageListingReviewStatus.approved]
  else [PackageListingReviewStatus.approved,
        PackageListingReviewStatus.unreviewed]

/-- Modelled from the spec: the PackageListing queryset method active() is
not under src/. Per the spec, a listing is visible to aggregate counts only
when it is active, and a rejected listing never counts towards aggregates;
so active() keeps the active, non-rejected listings. -/
def listings_active (ls : List PackageListing) : List PackageListing :=
  ls.filter fun l =>
    l.package_is_active
      && !(l.review_status == PackageListingReviewStatus.rejected)

/-- Modelled from the spec: the PackageListing queryset method approved() is
not under src/. It keeps the listings whose review status is approved. -/
def listings_approved (ls : List PackageListing) : List PackageListing :=
  ls.filter fun l => l.review_status == PackageListingReviewStatus.approved

/-- CommunityAggregatedFields.update_for_community: recompute the aggregate
record of the community from its active listings, filtered further to the
approved ones when the community requires listing approval. Returns the
record the save writes. -/
def CommunityAggregatedFields.update_for_community (c : Community) :
    AggregatedFields :=
  let listings := listings_active c.package_listings
  let listings :=
    if c.require_package_listing_approval
    then listings_approved listings
    else listings
  { package_count := listings.length
    download_count := (listings.map (fun l => l.total_downloads)).sum }

/-- CommunityAggregatedFields.create_missing: attach a fresh zero-valued
aggregate record to every community lacking one (the bulk_create of one
fresh row per lacking community, zipped and assigned in order, amounts to
this per-community update). -/
def CommunityAggregatedFields.create_missing (cs : List Community) :
    List Community :=
  cs.map fun c =>
    match c.aggregated_fields with
    | none =>
      { c with aggregated_fields := some { download_count := 0, package_count := 0 } }
    | some _ => c

/-- Community.save: the overridden model save. The database table is the
explicit list of stored rows keyed by pk; a raised ValidationError leaves it
untouched. On an already-persisted row a changed identifier raises before
anything is written; otherwise the image dimension fields are reset when the
image is absent and the row is written. -/
def Community.save (db : List (Nat × Community)) (c : Community) :
    List (Nat × Community) × Option ValidationError :=
  match c.pk with
  | some k =>
    match db.find? (fun e => e.1 == k) with
    | none => (db, some .DoesNotExist)
    | some e =>
      if e.2.identifier ≠ c.identifier then (db, some .IdentifierReadOnly)
      else
        let c := if !c.icon then { c with icon_width := 0, icon_height := 0 } else c
        let c :=
          if !c.background_image
          then { c with background_image_width := 0, background_image_height := 0 }
          else c
        (db.map (fun e => if e.1 == k then (k, c) else e), none)
  | none =>
    let c := if !c.icon then { c with icon_width := 0, icon_height := 0 } else c
    let c :=
      if !c.background_image
      then { c with background_image_width := 0, background_image_height := 0 }
      else c
    let fresh := ((db.map (fun e => e.1)).foldr max 0) + 1
    (db ++ [(fresh, { c with pk := some fresh })], none)

/-- The token-issuance collaborator: the stored bearer tokens, one pair of
user pk and key per row, and a counter from which fresh keys are drawn (the
framework generates a fresh random key per created token; freshness is what
matters, so keys are drawn from an increasing counter). -/
structure TokenStore where
  tokens : List (Nat × Nat)
  next_key : Nat
deriving DecidableEq

/-- CreateTokenForm.save: delete every stored token of the service account
backing user, then create exactly one new token for it. Returns the updated
store and the key of the created token. -/
def CreateTokenForm.save (sa_user : Nat) (s : TokenStore) : TokenStore × Nat :=
  let remaining := s.tokens.filter fun t => !(t.1 == sa_user)
  ({ tokens := (sa_user, s.next_key) :: remaining,
     next_key := s.next_key + 1 },
   s.next_key)

/-- create_service_account_username: the synthetic login name derived from
the generated identifier. -/
def create_service_account_username (id_ : String) : String :=
  id_ ++ ".sa@thunderstore.io"

/-- The persistence state touched by service-account creation: login
identities (usernames), team memberships (team paired with username), and
service-account records (generated id, username, owning team). -/
structure AccountState where
  users : List String
  memberships : List (String × String)
  service_accounts : List (String × String × String)
deriving DecidableEq

/-- User.objects.create_user: fails on a duplicate username (the unique
constraint of the identity collaborator), otherwise stores the identity. -/
def create_user_step (username : String) (s : AccountState) :
    Except ValidationError AccountState :=
  if s.users.contains username then .error .UsernameTaken
  else .ok { s with users := username :: s.users }

/-- Team.add_member: fails when the user already holds a membership on the
team, otherwise stores the membership. -/
def add_member_step (team username : String) (s : AccountState) :
    Except ValidationError AccountState :=
  if s.memberships.contains (team, username) then .error .DuplicateMembership
  else .ok { s with memberships := (team, username) :: s.memberships }

/-- ServiceAccount.objects.create: stores the service-account record. -/
def create_sa_record_step (id_ team username : String) (s : AccountState) :
    Except ValidationError AccountState :=
  .ok { s with service_accounts := (id_, username, team) :: s.service_accounts }

/-- Sequencing of sub-steps without a transaction: a failed step keeps the
state already committed by the earlier steps. -/
def run_step (f : AccountState → Except ValidationError AccountState)
    (st : AccountState × Option ValidationError) :
    AccountState × Option ValidationError :=
  match st with
  | (s, some e) => (s, some e)
  | (s, none) =>
    match f s with
    | .ok s2 => (s2, none)
    | .error e => (s, some e)

/-- transaction.atomic: on any failure of the wrapped body the state rolls
back to the state at entry. -/
def atomic (f : AccountState → AccountState × Option ValidationError)
    (s : AccountState) : AccountState × Option ValidationError :=
  match f s with
  | (s2, none) => (s2, none)
  | (_, some e) => (s, some e)

/-- The body of CreateServiceAccountForm.save: create the login identity,
add it as a member of the owning team, create the service-account record. -/
def create_service_account_steps (id_ team : String) (s : AccountState) :
    AccountState × Option ValidationError :=
  run_step (create_sa_record_step id_ team (create_service_account_username id_))
    (run_step (add_member_step team (create_service_account_username id_))
      (run_step (create_user_step (create_service_account_username id_))
        (s, none)))

/-- CreateServiceAccountForm.save: the three sub-steps wrapped in one
transaction.atomic. -/
def CreateServiceAccountForm.save (id_ team : String) (s : AccountState) :
    AccountState × Option ValidationError :=
  atomic (create_service_account_steps id_ team) s

/-- The profile returned by the current-user endpoint. -/
structure UserProfile where
  username : Option String
  capabilities : List String
  has_subscription : Bool
  rated_packages : List String
  teams : List String
deriving DecidableEq

/-- get_empty_profile: the profile served to anonymous actors. -/
def get_empty_profile : UserProfile :=
  { username := none
    capabilities := []
    has_subscription := false
    rated_packages := []
    teams := [] }

/-- The request actor as read by the current-user endpoint: the
authentication flag, the username, the rated package ids, and the team
memberships as pairs of team name and team active flag. -/
structure RequestUser where
  is_authenticated : Bool
  username : String
  rated_packages : List String
  team_memberships : List (String × Bool)
deriving DecidableEq

/-- get_user_profile: the profile of an authenticated user — a fixed
capability set, subscription hardcoded false, the rated package ids, and the
names of the active teams the user belongs to. -/
def get_user_profile (u : RequestUser) : UserProfile :=
  { username := some u.username
    capabilities := ["package.rate"]
    has_subscription := false
    rated_packages := u.rated_packages
    teams := (u.team_memberships.filter (fun t => t.2)).map (fun t => t.1) }

/-- CurrentUserExperimentalApiView.get: serve the full profile to an
authenticated actor and the empty profile otherwise. -/
def CurrentUserExperimentalApiView.get (u : RequestUser) : UserProfile :=
  if u.is_authenticated then get_user_profile u else get_empty_profile

/-- Helper: check_validity returns true exactly on success and false exactly
on a denial. -/
theorem check_validity_cases (r : Except ValidationError Unit) :
    (check_validity r = true ↔ r = .ok ()) ∧
    (check_validity r = false ↔ ∃ e, r = .error e) := by
  cases r with
  | ok v =>
    cases v
    simp [check_validity]
  | error e =>
    simp [check_validity]

/-- C1: for every actor, every protected action of the
manage-packages/deprecation/wiki class is checked in a fixed precedence
order with first match winning: an absent or unauthenticated actor is denied
NotAuthenticated; otherwise a deactivated actor is denied UserDeactivated
regardless of role or flags; otherwise a service-account actor is denied
ServiceAccountForbidden before any staff or superuser bypass applies. -/
theorem claim1_denial_precedence (c : Community) (p : Package) (u : User) :
    (Community.ensure_user_can_manage_packages c none =
        .error ValidationError.NotAuthenticated ∧
      Package.ensure_user_can_manage_deprecation p none =
        .error ValidationError.NotAuthenticated ∧
      Package.ensure_user_can_manage_wiki p none =
        .error ValidationError.NotAuthenticated) ∧
    (u.is_authenticated = false →
      Community.ensure_user_can_manage_packages c (some u) =
        .error ValidationError.NotAuthenticated ∧
      Package.ensure_user_can_manage_deprecation p (some u) =
        .error ValidationError.NotAuthenticated ∧
      Package.ensure_user_can_manage_wiki p (some u) =
        .error ValidationError.NotAuthenticated) ∧
    (u.is_authenticated = true → u.is_active = false →
      Community.ensure_user_can_manage_packages c (some u) =
        .error ValidationError.UserDeactivated ∧
      Package.ensure_user_can_manage_deprecation p (some u) =
        .error ValidationError.UserDeactivated ∧
      Package.ensure_user_can_manage_wiki p (some u) =
        .error ValidationError.UserDeactivated) ∧
    (u.is_authenticated = true → u.is_active = true → u.hasService = true →
      Community.ensure_user_can_manage_packages c (some u) =
        .error ValidationError.ServiceAccountForbidden ∧
      Package.ensure_user_can_manage_deprecation p (some u) =
        .error ValidationError.ServiceAccountForbidden ∧
      Package.ensure_user_can_manage_wiki p (some u) =
        .error ValidationError.ServiceAccountForbidden) := by
  refine ⟨⟨rfl, rfl, rfl⟩, ?_, ?_, ?_⟩
  · intro h
    refine ⟨?_, ?_, ?_⟩ <;>
      simp [Community.ensure_user_can_manage_packages,
        Package.ensure_user_can_manage_deprecation,
        Package.ensure_user_can_manage_wiki, h]
  · intro h1 h2
    refine ⟨?_, ?_, ?_⟩ <;>
      simp [Community.ensure_user_can_manage_packages,
        Package.ensure_user_can_manage_deprecation,
        Package.ensure_user_can_manage_wiki, h1, h2]
  · intro h1 h2 h3
    refine ⟨?_, ?_, ?_⟩ <;>
      simp [Community.ensure_user_can_manage_packages,
        Package.ensure_user_can_manage_deprecation,
        Package.ensure_user_can_manage_wiki, h1, h2, h3]

/-- C1 witness: the precedence theorem applied to a concrete deactivated
actor. -/
theorem claim1_denial_precedence_witness :
    Community.ensure_user_can_manage_packages
        { pk := none, identifier := "test", icon := false, icon_width := 0,
          icon_height := 0, background_image := false,
          background_image_width := 0, background_image_height := 0,
          require_package_listing_approval := false, members := [],
          package_listings := [], aggregated_fields := none }
        (some { pk := 7, is_authenticated := true, is_active := false,
                hasService := false, is_superuser := true, is_staff := true,
                hasDeprecatePerm := true }) =
      .error ValidationError.UserDeactivated ∧
    Package.ensure_user_can_manage_deprecation
        { owner_members := [], is_active := true, is_deprecated := false,
          date_updated := 0 }
        (some { pk := 7, is_authenticated := true, is_active := false,
                hasService := false, is_superuser := true, is_staff := true,
                hasDeprecatePerm := true }) =
      .error ValidationError.UserDeactivated ∧
    Package.ensure_user_can_manage_wiki
        { owner_members := [], is_active := true, is_deprecated := false,
          date_updated := 0 }
        (some { pk := 7, is_authenticated := true, is_active := false,
                hasService := false, is_superuser := true, is_staff := true,
                hasDeprecatePerm := true }) =
      .error ValidationError.UserDeactivated :=
  (claim1_denial_precedence
    { pk := none, identifier := "test", icon := false, icon_width := 0,
      icon_height := 0, background_image := false,
      background_image_width := 0, background_image_height := 0,
      require_package_listing_approval := false, members := [],
      package_listings := [], aggregated_fields := none }
    { owner_members := [], is_active := true, is_deprecated := false,
      date_updated := 0 }
    { pk := 7, is_authenticated := true, is_active := false,
      hasService := false, is_superuser := true, is_staff := true,
      hasDeprecatePerm := true }).2.2.1 rfl rfl

/-- C2: for every actor and target, the non-throwing can-style query returns
true exactly when the corresponding throwing ensure-style check succeeds,
and returns false exactly when the check raises some denial; being a total
boolean function it never raises. -/
theorem claim2_can_iff_ensure (c : Community) (p : Package)
    (user : Option User) :
    (Community.can_user_manage_packages c user = true ↔
      Community.ensure_user_can_manage_packages c user = .ok ()) ∧
    (Community.can_user_manage_packages c user = false ↔
      ∃ e, Community.ensure_user_can_manage_packages c user = .error e) ∧
    (Package.can_user_manage_deprecation p user = true ↔
      Package.ensure_user_can_manage_deprecation p user = .ok ()) ∧
    (Package.can_user_manage_deprecation p user = false ↔
      ∃ e, Package.ensure_user_can_manage_deprecation p user = .error e) ∧
    (Package.can_user_manage_wiki p user = true ↔
      Package.ensure_user_can_manage_wiki p user = .ok ()) ∧
    (Package.can_user_manage_wiki p user = false ↔
      ∃ e, Package.ensure_user_can_manage_wiki p user = .error e) :=
  ⟨(check_validity_cases _).1, (check_validity_cases _).2,
   (check_validity_cases _).1, (check_validity_cases _).2,
   (check_validity_cases _).1, (check_validity_cases _).2⟩

/-- C6: the four package flag transitions each change only their own flag
and leave the update timestamp (and the other flag) untouched; deprecate
followed by undeprecate restores is_deprecated to false with the original
timestamp. -/
theorem claim6_transitions_preserve_date_updated (p : Package) :
    p.deprecate.date_updated = p.date_updated ∧
    p.deprecate.is_active = p.is_active ∧
    p.deprecate.is_deprecated = true ∧
    p.undeprecate.date_updated = p.date_updated ∧
    p.undeprecate.is_active = p.is_active ∧
    p.undeprecate.is_deprecated = false ∧
    p.activate.date_updated = p.date_updated ∧
    p.activate.is_deprecated = p.is_deprecated ∧
    p.activate.is_active = true ∧
    p.deactivate.date_updated = p.date_updated ∧
    p.deactivate.is_deprecated = p.is_deprecated ∧
    p.deactivate.is_active = false ∧
    p.deprecate.undeprecate.date_updated = p.date_updated ∧
    p.deprecate.undeprecate.is_deprecated = false :=
  ⟨rfl, rfl, rfl, rfl, rfl, rfl, rfl, rfl, rfl, rfl, rfl, rfl, rfl, rfl⟩

/-- C10: an unauthenticated request to the current-user endpoint is served
the empty profile — no username, empty capability set, no subscription,
empty rated-packages and teams lists — and the endpoint is total on
anonymous actors. -/
theorem claim10_empty_profile (u : RequestUser)
    (h : u.is_authenticated = false) :
    CurrentUserExperimentalApiView.get u = get_empty_profile ∧
    (CurrentUserExperimentalApiView.get u).username = none ∧
    (CurrentUserExperimentalApiView.get u).capabilities = [] ∧
    (CurrentUserExperimentalApiView.get u).has_subscription = false ∧
    (CurrentUserExperimentalApiView.get u).rated_packages = [] ∧
    (CurrentUserExperimentalApiView.get u).teams = [] := by
  simp [CurrentUserExperimentalApiView.get, h, get_empty_profile]

/-- C10 witness: the theorem applied to a concrete anonymous actor. -/
theorem claim10_empty_profile_witness :
    CurrentUserExperimentalApiView.get
        { is_authenticated := false, username := "anon",
          rated_packages := ["a"], team_memberships := [("t", true)] } =
      get_empty_profile ∧
    (CurrentUserExperimentalApiView.get
        { is_authenticated := false, username := "anon",
          rated_packages := ["a"], team_memberships := [("t", true)] }).username =
      none ∧
    (CurrentUserExperimentalApiView.get
        { is_authenticated := false, username := "anon",
          rated_packages := ["a"], team_memberships := [("t", true)] }).capabilities =
      [] ∧
    (CurrentUserExperimentalApiView.get
        { is_authenticated := false, username := "anon",
          rated_packages := ["a"], team_memberships := [("t", true)] }).has_subscription =
      false ∧
    (CurrentUserExperimentalApiView.get
        { is_authenticated := false, username := "anon",
          rated_packages := ["a"], team_memberships := [("t", true)] }).rated_packages =
      [] ∧
    (CurrentUserExperimentalApiView.get
        { is_authenticated := false, username := "anon",
          rated_packages := ["a"], team_memberships := [("t", true)] }).teams =
      [] :=
  claim10_empty_profile
    { is_authenticated := false, username := "anon",
      rated_packages := ["a"], team_memberships := [("t", true)] } rfl

/-- C3: update_for_community sets package_count to the number of active
approved listings when the community requires listing approval, and to the
number of active approved-or-unreviewed listings otherwise; rejected
listings never count. -/
theorem claim3_package_count (c : Community) :
    (c.require_package_listing_approval = true →
      (CommunityAggregatedFields.update_for_community c).package_count =
        (c.package_listings.filter fun l =>
          l.package_is_active
            && l.review_status == PackageListingReviewStatus.approved).length) ∧
    (c.require_package_listing_approval = false →
      (CommunityAggregatedFields.update_for_community c).package_count =
        (c.package_listings.filter fun l =>
          l.package_is_active
            && (l.review_status == PackageListingReviewStatus.approved
              || l.review_status == PackageListingReviewStatus.unreviewed)).length) := by
  constructor
  · intro h
    simp only [CommunityAggregatedFields.update_for_community, h, if_true,
      listings_active, listings_approved, List.filter_filter]
    congr 1
    apply List.filter_congr
    intro l _
    rcases l with ⟨a, st, d⟩
    cases st <;> cases a <;> rfl
  · intro h
    simp only [CommunityAggregatedFields.update_for_community, h,
      Bool.false_eq_true, if_false, listings_active]
    congr 1
    apply List.filter_congr
    intro l _
    rcases l with ⟨a, st, d⟩
    cases st <;> cases a <;> rfl

/-- C3 witness: a community with three active listings, one per review
status, counted without the approval requirement. -/
theorem claim3_package_count_witness :
    (CommunityAggregatedFields.update_for_community
        { pk := some 1, identifier := "test", icon := false, icon_width := 0,
          icon_height := 0, background_image := false,
          background_image_width := 0, background_image_height := 0,
          require_package_listing_approval := false, members := [],
          package_listings :=
            [{ package_is_active := true,
               review_status := PackageListingReviewStatus.approved,
               total_downloads := 3 },
             { package_is_active := true,
               review_status := PackageListingReviewStatus.unreviewed,
               total_downloads := 5 },
             { package_is_active := true,
               review_status := PackageListingReviewStatus.rejected,
               total_downloads := 7 }],
          aggregated_fields := some { download_count := 0, package_count := 0 } }).package_count =
      (([{ package_is_active := true,
           review_status := PackageListingReviewStatus.approved,
           total_downloads := 3 },
         { package_is_active := true,
           review_status := PackageListingReviewStatus.unreviewed,
           total_downloads := 5 },
         { package_is_active := true,
           review_status := PackageListingReviewStatus.rejected,
           total_downloads := 7 }] : List PackageListing).filter fun l =>
        l.package_is_active
          && (l.review_status == PackageListingReviewStatus.approved
            || l.review_status == PackageListingReviewStatus.unreviewed)).length :=
  (claim3_package_count
    { pk := some 1, identifier := "test", icon := false, icon_width := 0,
      icon_height := 0, background_image := false,
      background_image_width := 0, background_image_height := 0,
      require_package_listing_approval := false, members := [],
      package_listings :=
        [{ package_is_active := true,
           review_status := PackageListingReviewStatus.approved,
           total_downloads := 3 },
         { package_is_active := true,
           review_status := PackageListingReviewStatus.unreviewed,
           total_downloads := 5 },
         { package_is_active := true,
           review_status := PackageListingReviewStatus.rejected,
           total_downloads := 7 }],
      aggregated_fields := some { download_count := 0, package_count := 0 } }).2 rfl

/-- C4: create_missing attaches a fresh zero-valued aggregate record to
exactly the communities lacking one, leaves the others untouched, is
idempotent, and afterwards every community holds an aggregate record. -/
theorem claim4_create_missing (cs : List Community) :
    CommunityAggregatedFields.create_missing
        (CommunityAggregatedFields.create_missing cs) =
      CommunityAggregatedFields.create_missing cs ∧
    CommunityAggregatedFields.create_missing cs =
      cs.map (fun c =>
        if c.aggregated_fields = none
        then { c with aggregated_fields := some (AggregatedFields.mk 0 0) }
        else c) ∧
    ∀ c2 ∈ CommunityAggregatedFields.create_missing cs,
      c2.aggregated_fields ≠ none := by
  have h2 : CommunityAggregatedFields.create_missing cs =
      cs.map (fun c =>
        if c.aggregated_fields = none
        then { c with aggregated_fields := some (AggregatedFields.mk 0 0) }
        else c) := by
    simp only [CommunityAggregatedFields.create_missing]
    apply List.map_congr_left
    intro c _
    cases hc : c.aggregated_fields <;> simp [hc]
  refine ⟨?_, h2, ?_⟩
  · simp only [CommunityAggregatedFields.create_missing, List.map_map]
    apply List.map_congr_left
    intro c _
    cases hc : c.aggregated_fields <;> simp [Function.comp, hc]
  · intro c2 hmem
    rw [h2] at hmem
    rcases List.mem_map.mp hmem with ⟨c, _, hc⟩
    by_cases hn : c.aggregated_fields = none
    · simp [hn] at hc
      rw [← hc]
      simp
    · simp [hn] at hc
      rw [← hc]
      exact hn

/-- C4 witness: one community lacking the record and one holding it. -/
theorem claim4_create_missing_witness :
    (CommunityAggregatedFields.create_missing
        (CommunityAggregatedFields.create_missing
          [{ pk := some 1, identifier := "a", icon := false, icon_width := 0,
             icon_height := 0, background_image := false,
             background_image_width := 0, background_image_height := 0,
             require_package_listing_approval := false, members := [],
             package_listings := [], aggregated_fields := none },
           { pk := some 2, identifier := "b", icon := false, icon_width := 0,
             icon_height := 0, background_image := false,
             background_image_width := 0, background_image_height := 0,
             require_package_listing_approval := false, members := [],
             package_listings := [],
             aggregated_fields := some { download_count := 4, package_count := 2 } }]) =
      CommunityAggregatedFields.create_missing
        [{ pk := some 1, identifier := "a", icon := false, icon_width := 0,
           icon_height := 0, background_image := false,
           background_image_width := 0, background_image_height := 0,
           require_package_listing_approval := false, members := [],
           package_listings := [], aggregated_fields := none },
         { pk := some 2, identifier := "b", icon := false, icon_width := 0,
           icon_height := 0, background_image := false,
           background_image_width := 0, background_image_height := 0,
           require_package_listing_approval := false, members := [],
           package_listings := [],
           aggregated_fields := some { download_count := 4, package_count := 2 } }]) :=
  (claim4_create_missing
    [{ pk := some 1, identifier := "a", icon := false, icon_width := 0,
       icon_height := 0, background_image := false,
       background_image_width := 0, background_image_height := 0,
       require_package_listing_approval := false, members := [],
       package_listings := [], aggregated_fields := none },
     { pk := some 2, identifier := "b", icon := false, icon_width := 0,
       icon_height := 0, background_image := false,
       background_image_width := 0, background_image_height := 0,
       require_package_listing_approval := false, members := [],
       package_listings := [],
       aggregated_fields := some { download_count := 4, package_count := 2 } }]).1

/-- C5: issuing a token leaves the backing user with exactly the one token
just created; issuing twice leaves exactly one token whose key differs from
the first issued key. -/
theorem claim5_issue_token (s : TokenStore) (u : Nat) :
    ((CreateTokenForm.save u s).1.tokens.filter fun t => t.1 == u) =
      [(u, s.next_key)] ∧
    ((CreateTokenForm.save u (CreateTokenForm.save u s).1).1.tokens.filter
        fun t => t.1 == u) =
      [(u, s.next_key + 1)] ∧
    (CreateTokenForm.save u (CreateTokenForm.save u s).1).2 ≠
      (CreateTokenForm.save u s).2 := by
  have key : ∀ s2 : TokenStore,
      ((CreateTokenForm.save u s2).1.tokens.filter fun t => t.1 == u) =
        [(u, s2.next_key)] := by
    intro s2
    simp [CreateTokenForm.save, List.filter_filter]
  refine ⟨key s, key _, ?_⟩
  simp [CreateTokenForm.save]

/-- C5 witness: the single-token theorem applied to a concrete store holding
two stale tokens of the account. -/
theorem claim5_issue_token_witness :
    ((CreateTokenForm.save 9
        { tokens := [(9, 0), (9, 1), (4, 2)], next_key := 3 }).1.tokens.filter
        fun t => t.1 == 9) =
      [(9, 3)] :=
  (claim5_issue_token { tokens := [(9, 0), (9, 1), (4, 2)], next_key := 3 } 9).1

/-- C7: service-account creation is all-or-nothing — on success the login
identity, the team membership and the service-account record are all three
stored, and on any sub-step failure the state is exactly the state at entry,
with no orphaned identity or membership. -/
theorem claim7_service_account_creation_atomic (id_ team : String)
    (s : AccountState) :
    ((CreateServiceAccountForm.save id_ team s).2 = none →
      (CreateServiceAccountForm.save id_ team s).1 =
        { users := create_service_account_username id_ :: s.users
          memberships :=
            (team, create_service_account_username id_) :: s.memberships
          service_accounts :=
            (id_, create_service_account_username id_, team)
              :: s.service_accounts }) ∧
    (∀ e, (CreateServiceAccountForm.save id_ team s).2 = some e →
      (CreateServiceAccountForm.save id_ team s).1 = s) := by
  by_cases hu : create_service_account_username id_ ∈ s.users
  · simp [CreateServiceAccountForm.save, atomic, create_service_account_steps,
      run_step, create_user_step, add_member_step, create_sa_record_step, hu]
  · by_cases hm :
      (team, create_service_account_username id_) ∈ s.memberships
    · simp [CreateServiceAccountForm.save, atomic,
        create_service_account_steps, run_step, create_user_step,
        add_member_step, create_sa_record_step, hu, hm]
    · simp [CreateServiceAccountForm.save, atomic,
        create_service_account_steps, run_step, create_user_step,
        add_member_step, create_sa_record_step, hu, hm]

/-- C7 witness: creation rolls back when the derived username is already
taken. -/
theorem claim7_service_account_creation_atomic_witness :
    (CreateServiceAccountForm.save "01" "Test_Team"
        { users := [create_service_account_username "01"],
          memberships := [], service_accounts := [] }).1 =
      { users := [create_service_account_username "01"],
        memberships := [], service_accounts := [] } :=
  (claim7_service_account_creation_atomic "01" "Test_Team"
    { users := [create_service_account_username "01"],
      memberships := [], service_accounts := [] }).2
    ValidationError.UsernameTaken (by decide)

/-- C8: saving an already-persisted community with a changed identifier
raises the read-only validation error and leaves the stored rows exactly as
they were. -/
theorem claim8_identifier_read_only (db : List (Nat × Community))
    (c stored : Community) (k : Nat)
    (hpk : c.pk = some k)
    (hdb : db.find? (fun e => e.1 == k) = some (k, stored))
    (hid : stored.identifier ≠ c.identifier) :
    Community.save db c = (db, some ValidationError.IdentifierReadOnly) := by
  simp [Community.save, hpk, hdb, hid]

/-- C8 witness: a concrete stored community saved back with a changed
identifier. -/
theorem claim8_identifier_read_only_witness :
    Community.save
        [(1, { pk := some 1, identifier := "old", icon := false,
               icon_width := 0, icon_height := 0, background_image := false,
               background_image_width := 0, background_image_height := 0,
               require_package_listing_approval := false, members := [],
               package_listings := [], aggregated_fields := none })]
        { pk := some 1, identifier := "new", icon := false, icon_width := 0,
          icon_height := 0, background_image := false,
          background_image_width := 0, background_image_height := 0,
          require_package_listing_approval := false, members := [],
          package_listings := [], aggregated_fields := none } =
      ([(1, { pk := some 1, identifier := "old", icon := false,
              icon_width := 0, icon_height := 0, background_image := false,
              background_image_width := 0, background_image_height := 0,
              require_package_listing_approval := false, members := [],
              package_listings := [], aggregated_fields := none })],
       some ValidationError.IdentifierReadOnly) :=
  claim8_identifier_read_only
    [(1, { pk := some 1, identifier := "old", icon := false,
           icon_width := 0, icon_height := 0, background_image := false,
           background_image_width := 0, background_image_height := 0,
           require_package_listing_approval := false, members := [],
           package_listings := [], aggregated_fields := none })]
    { pk := some 1, identifier := "new", icon := false, icon_width := 0,
      icon_height := 0, background_image := false,
      background_image_width := 0, background_image_height := 0,
      require_package_listing_approval := false, members := [],
      package_listings := [], aggregated_fields := none }
    { pk := some 1, identifier := "old", icon := false, icon_width := 0,
      icon_height := 0, background_image := false,
      background_image_width := 0, background_image_height := 0,
      require_package_listing_approval := false, members := [],
      package_listings := [], aggregated_fields := none }
    1 rfl rfl (by decide)

/-- C9 counterexample: an active, authenticated, non-service-account actor
holding a community membership of role member (the lowest role at or above
member) is denied the member-class manage-packages action, refuting the
claim that role member or higher suffices for it. -/
theorem claim9_counterexample :
    Community.ensure_user_can_manage_packages
        { pk := some 1, identifier := "test", icon := false, icon_width := 0,
          icon_height := 0, background_image := false,
          background_image_width := 0, background_image_height := 0,
          require_package_listing_approval := false,
          members := [(1, CommunityMemberRole.member)],
          package_listings := [], aggregated_fields := none }
        (some { pk := 1, is_authenticated := true, is_active := true,
                hasService := false, is_superuser := false,
                is_staff := false, hasDeprecatePerm := false }) =
      .error ValidationError.InsufficientRole ∧
    Community.can_user_manage_packages
        { pk := some 1, identifier := "test", icon := false, icon_width := 0,
          icon_height := 0, background_image := false,
          background_image_width := 0, background_image_height := 0,
          require_package_listing_approval := false,
          members := [(1, CommunityMemberRole.member)],
          package_listings := [], aggregated_fields := none }
        (some { pk := 1, is_authenticated := true, is_active := true,
                hasService := false, is_superuser := false,
                is_staff := false, hasDeprecatePerm := false }) = false :=
  ⟨rfl, rfl⟩

/-- C9 amended: for every active, authenticated, non-service-account actor,
a team membership of role member or higher allows the member-class package
actions (manage deprecation, manage wiki); the community manage-packages
check instead requires role moderator or owner, and an actor whose community
role is only member (without staff or superuser flag) is denied with the
insufficient-role error. -/
theorem claim9_member_role (u : User) (c : Community) (p : Package)
    (r : TeamMemberRole)
    (hauth : u.is_authenticated = true) (hact : u.is_active = true)
    (hsa : u.hasService = false) :
    (p.owner_members.find? (fun m => m.1 == u.pk) = some (u.pk, r) →
      Package.ensure_user_can_manage_deprecation p (some u) = .ok () ∧
      Package.ensure_user_can_manage_wiki p (some u) = .ok ()) ∧
    ((c.get_membership_for_user u = some CommunityMemberRole.moderator ∨
      c.get_membership_for_user u = some CommunityMemberRole.owner) →
      Community.ensure_user_can_manage_packages c (some u) = .ok ()) ∧
    (u.is_superuser = false → u.is_staff = false →
      c.get_membership_for_user u = some CommunityMemberRole.member →
      Community.ensure_user_can_manage_packages c (some u) =
        .error ValidationError.InsufficientRole) := by
  refine ⟨?_, ?_, ?_⟩
  · intro hf
    constructor
    · cases hsup : u.is_superuser <;> cases hstaff : u.is_staff <;>
        cases hperm : u.hasDeprecatePerm <;>
        simp [Package.ensure_user_can_manage_deprecation, hauth, hact, hsa,
          hsup, hstaff, hperm, hf] <;>
        cases r <;> simp
    · simp [Package.ensure_user_can_manage_wiki, hauth, hact, hsa, hf]
      cases r <;> simp
  · intro hmem
    rcases hmem with h | h <;>
      simp [Community.ensure_user_can_manage_packages, hauth, hact, hsa, h]
  · intro hsup hstaff hmem
    simp [Community.ensure_user_can_manage_packages, hauth, hact, hsa,
      hsup, hstaff, hmem]

/-- C9 witness: a member-role team membership allowing deprecation and wiki
management for a concrete plain user. -/
theorem claim9_member_role_witness :
    Package.ensure_user_can_manage_deprecation
        { owner_members := [(2, TeamMemberRole.member)], is_active := true,
          is_deprecated := false, date_updated := 0 }
        (some { pk := 2, is_authenticated := true, is_active := true,
                hasService := false, is_superuser := false,
                is_staff := false, hasDeprecatePerm := false }) = .ok () ∧
    Package.ensure_user_can_manage_wiki
        { owner_members := [(2, TeamMemberRole.member)], is_active := true,
          is_deprecated := false, date_updated := 0 }
        (some { pk := 2, is_authenticated := true, is_active := true,
                hasService := false, is_superuser := false,
                is_staff := false, hasDeprecatePerm := false }) = .ok () :=
  (claim9_member_role
    { pk := 2, is_authenticated := true, is_active := true,
      hasService := false, is_superuser := false, is_staff := false,
      hasDeprecatePerm := false }
    { pk := some 1, identifier := "test", icon := false, icon_width := 0,
      icon_height := 0, background_image := false,
      background_image_width := 0, background_image_height := 0,
      require_package_listing_approval := false, members := [],
      package_listings := [], aggregated_fields := none }
    { owner_members := [(2, TeamMemberRole.member)], is_active := true,
      is_deprecated := false, date_updated := 0 }
    TeamMemberRole.member rfl rfl rfl).1 rfl

end Thunderstore
